import Mathlib

/-
Shallow embedding of src/main.py (PythonSpeed-test).

Numeric values are modelled as rationals (ℚ): the Python code uses floats,
but every claim under scrutiny involves exact arithmetic, so ℚ captures the
intended values ("within floating-point tolerance" becomes exact equality).
Fallible operations (division whose divisor may be zero) become Option or
Except, mirroring which Python expressions can raise.
-/

namespace PySpeed

/-- Python truncation toward zero, `int(q)` (main.py line 22 applies it to a
nonnegative value, where it coincides with floor). -/
def pyInt (q : ℚ) : ℤ := if 0 ≤ q then ⌊q⌋ else ⌈q⌉

/-- Default bar length of `AdvancedProgressBar.__init__` (main.py line 10). -/
def defaultBarLength : ℕ := 40

/-- `progress = min(current / self.total, 1.0)` (main.py line 21). -/
def progress (current total : ℚ) : ℚ := min (current / total) 1

/-- `filled_length = int(self.bar_length * progress)` (main.py line 22). -/
def filledLength (barLength : ℕ) (p : ℚ) : ℤ := pyInt ((barLength : ℚ) * p)

/-- Python string repetition `ch * k` (empty for `k ≤ 0`), as a char list. -/
def pyRepeat (c : Char) (k : ℤ) : List Char := List.replicate k.toNat c

/-- `bar = '█' * filled_length + '▒' * (bar_length - filled_length)`
(main.py line 25). -/
def renderBar (barLength : ℕ) (filled : ℤ) : List Char :=
  pyRepeat '█' filled ++ pyRepeat '▒' ((barLength : ℤ) - filled)

/-- `speed = current / elapsed_time` when `elapsed_time > 0`, else 0
(main.py lines 32-33, 39-40). -/
def speed (elapsed current : ℚ) : ℚ := if 0 < elapsed then current / elapsed else 0

/-- `avg_iteration_time = sum(self.iteration_times) / len(self.iteration_times)`
(main.py line 35). -/
def avgIterationTime (samples : List ℚ) : ℚ := samples.sum / (samples.length : ℚ)

/-- The ETA computation of `update` (main.py lines 32-41): with positive
elapsed time, use the averaged iteration-time samples once at least two
exist, otherwise extrapolate from the progress fraction; zero elapsed time
gives ETA 0. -/
def eta (elapsed current total : ℚ) (samples : List ℚ) : ℚ :=
  if 0 < elapsed then
    if 2 ≤ samples.length then
      if 0 < current then avgIterationTime samples * (total - current) else 0
    else
      if 0 < progress current total then
        elapsed * (1 - progress current total) / progress current total
      else 0
  else 0

/-- The sample-buffer mutation at the end of `update` (main.py lines 59-65):
if `current > 0`, append `elapsed / current` and pop the front when the
length exceeds 100. -/
def recordSample (buf : List ℚ) (current elapsed : ℚ) : List ℚ :=
  if 0 < current then
    if 100 < (buf ++ [elapsed / current]).length then (buf ++ [elapsed / current]).tail
    else buf ++ [elapsed / current]
  else buf

/-- Round half to even, Python's `round` / `:.Nf` float formatting rule. -/
def roundHalfEven (q : ℚ) : ℤ :=
  let f := ⌊q⌋
  let r := q - (f : ℚ)
  if r < 1 / 2 then f
  else if 1 / 2 < r then f + 1
  else if f % 2 = 0 then f else f + 1

/-- Python `f"{q:.1f}"` for nonnegative `q`: one digit after the point. -/
def fmt1 (q : ℚ) : String :=
  let n := roundHalfEven (q * 10)
  toString (n / 10) ++ "." ++ toString (n % 10)

/-- Python `f"{q:.0f}"` for nonnegative `q`. -/
def fmt0 (q : ℚ) : String := toString (roundHalfEven q)

/-- `AdvancedProgressBar.format_time` (main.py lines 73-83): `"S.Ss"` below a
minute, `"Mm Ss"` below an hour, `"Hh Mm"` otherwise, via float `divmod`. -/
def formatTime (seconds : ℚ) : String :=
  if seconds < 60 then fmt1 seconds ++ "s"
  else if seconds < 3600 then
    let m : ℤ := ⌊seconds / 60⌋
    let s : ℚ := seconds - 60 * (m : ℚ)
    fmt0 (m : ℚ) ++ "m " ++ fmt0 s ++ "s"
  else
    let h : ℤ := ⌊seconds / 3600⌋
    let m0 : ℚ := seconds - 3600 * (h : ℚ)
    let m : ℤ := ⌊m0 / 60⌋
    fmt0 (h : ℚ) ++ "h " ++ fmt0 (m : ℚ) ++ "m"

/-- The qualitative performance tiers of `calculate_performance_metrics`
(main.py lines 199-216). -/
inductive RatingTier
  | EXTREME
  | EXCELLENT
  | GREAT
  | GOOD
  | AVERAGE
  | SLOW
deriving DecidableEq, Repr

/-- The descending threshold chain of main.py lines 199-216. -/
def rating (cps : ℚ) : RatingTier :=
  if 10000000 ≤ cps then .EXTREME
  else if 1000000 ≤ cps then .EXCELLENT
  else if 100000 ≤ cps then .GREAT
  else if 10000 ≤ cps then .GOOD
  else if 1000 ≤ cps then .AVERAGE
  else .SLOW

/-- The metrics dictionary built by `calculate_performance_metrics`
(main.py lines 184-218). -/
structure PerformanceMetrics where
  total_time : ℚ
  cpu_time : ℚ
  cycles_per_second : ℚ
  seconds_per_cycle : ℚ
  cpu_efficiency : ℚ
  rating_tier : RatingTier
deriving DecidableEq, Repr

/-- Division that signals (as `none`) Python's ZeroDivisionError. -/
def guardedDiv (a b : ℚ) : Option ℚ := if b = 0 then none else some (a / b)

/-- `calculate_performance_metrics` (main.py lines 184-218), with each
division routed through `guardedDiv` exactly where Python divides, under the
same `if ... > 0 else 0` guards as the source. -/
def calculatePerformanceMetrics (numCycles totalTime cpuTime : ℚ) :
    Option PerformanceMetrics :=
  match (if 0 < totalTime then guardedDiv numCycles totalTime else some 0),
        (if 0 < numCycles then guardedDiv totalTime numCycles else some 0),
        (if 0 < totalTime then Option.map (fun x => x * 100) (guardedDiv cpuTime totalTime)
         else some 0) with
  | some cps, some spc, some eff =>
      some ⟨totalTime, cpuTime, cps, spc, eff, rating cps⟩
  | _, _, _ => none

/-- `test_cycles` of `display_predictions` (main.py line 247). -/
def testCycles : List ℕ := [100, 1000, 10000, 100000, 1000000, 10000000, 100000000]

/-- `estimated_time = time_per_cycle * cycles` (main.py line 252). -/
def estimatedTime (timePerCycle : ℚ) (cycles : ℕ) : ℚ := timePerCycle * (cycles : ℚ)

/-- The (count, estimated_time) pairs printed by `display_predictions`
(main.py lines 250-270): only counts strictly above `num_cycles`. -/
def displayPredictions (numCycles : ℕ) (timePerCycle : ℚ) : List (ℕ × ℚ) :=
  (testCycles.filter (fun c => numCycles < c)).map
    (fun c => (c, estimatedTime timePerCycle c))

/-- The display tiers of `display_predictions` (main.py lines 254-268). -/
inductive TimeTier
  | microseconds
  | milliseconds
  | seconds
  | minutes
  | hours
deriving DecidableEq, Repr

/-- Which formatting branch of main.py lines 254-268 an estimated time hits. -/
def predictionTier (t : ℚ) : TimeTier :=
  if t < 1 / 1000 then .microseconds
  else if t < 1 then .milliseconds
  else if t < 60 then .seconds
  else if t < 3600 then .minutes
  else .hours

/-- `batch_size = max(1, min(num_cycles // 100, 10000))` (main.py line 129). -/
def batchSize (n : ℕ) : ℕ := max 1 (min (n / 100) 10000)

/-- One iteration of the `perform_cycles` loop (main.py lines 131-145),
tracking the `current` values passed to `progress_bar.update`. When the
update branch is taken, Python next evaluates `i % (num_cycles // 10)`,
which raises ZeroDivisionError when `num_cycles // 10 == 0`; the error
carries the iteration index `i` at which it is raised. -/
def cycleStep (n i : ℕ) (upds : List ℕ) : Except ℕ (List ℕ) :=
  if i % batchSize n = 0 ∨ i = n - 1 then
    let upds := upds ++ [i + 1]
    if n / 10 = 0 then .error i
    else .ok upds
  else .ok upds

/-- `perform_cycles` (main.py lines 100-158) reduced to its update trace:
run the loop over `range(num_cycles)`, then `progress_bar.finish()` calls
`update(self.total)` (main.py line 69). -/
def performCycles (n : ℕ) : Except ℕ (List ℕ) := do
  let upds ← (List.range n).foldlM (fun upds i => cycleStep n i upds) []
  pure (upds ++ [n])

/-- How a run of `perform_cycles` surfaces through `main`'s try/except
(main.py lines 278-330): normal completion, or the catch-all `except
Exception` branch that prints the error. -/
inductive RunOutcome
  | completed (updates : List ℕ)
  | caughtError (iteration : ℕ)
deriving DecidableEq, Repr

/-- `main` dispatching on whether `perform_cycles` raised (main.py lines
309, 328-330). -/
def mainOutcome (n : ℕ) : RunOutcome :=
  match performCycles n with
  | .ok u => .completed u
  | .error i => .caughtError i

/-- C1: for total > 0 and 0 ≤ current ≤ total, update computes
progress = min(current/total, 1) = current/total, reports a percentage of
exactly 100·current/total, and renders a bar with
⌊bar_length·current/total⌋ filled cells and the remaining
bar_length − ⌊bar_length·current/total⌋ cells empty (bar_length = 40). -/
theorem update_progress_and_bar (total current : ℕ) (ht : 0 < total)
    (hc : current ≤ total) :
    progress (current : ℚ) (total : ℚ) = (current : ℚ) / (total : ℚ) ∧
    100 * progress (current : ℚ) (total : ℚ) = 100 * (current : ℚ) / (total : ℚ) ∧
    filledLength defaultBarLength (progress (current : ℚ) (total : ℚ)) =
      ⌊(defaultBarLength : ℚ) * (current : ℚ) / (total : ℚ)⌋ ∧
    (renderBar defaultBarLength
        (filledLength defaultBarLength (progress (current : ℚ) (total : ℚ)))).count '█' =
      (⌊(defaultBarLength : ℚ) * (current : ℚ) / (total : ℚ)⌋).toNat ∧
    (renderBar defaultBarLength
        (filledLength defaultBarLength (progress (current : ℚ) (total : ℚ)))).count '▒' =
      defaultBarLength - (⌊(defaultBarLength : ℚ) * (current : ℚ) / (total : ℚ)⌋).toNat := by
  have htq : (0 : ℚ) < (total : ℚ) := by exact_mod_cast ht
  have hcq : (current : ℚ) ≤ (total : ℚ) := by exact_mod_cast hc
  have hdiv1 : (current : ℚ) / (total : ℚ) ≤ 1 := (div_le_one htq).mpr hcq
  have hdiv0 : (0 : ℚ) ≤ (current : ℚ) / (total : ℚ) :=
    div_nonneg (Nat.cast_nonneg current) htq.le
  have hp : progress (current : ℚ) (total : ℚ) = (current : ℚ) / (total : ℚ) :=
    min_eq_left hdiv1
  have hfl : filledLength defaultBarLength (progress (current : ℚ) (total : ℚ)) =
      ⌊(defaultBarLength : ℚ) * (current : ℚ) / (total : ℚ)⌋ := by
    unfold filledLength pyInt
    rw [hp, mul_div_assoc]
    exact if_pos (mul_nonneg (by norm_num) hdiv0)
  have hF0 : 0 ≤ ⌊(defaultBarLength : ℚ) * (current : ℚ) / (total : ℚ)⌋ :=
    Int.floor_nonneg.mpr (by rw [mul_div_assoc]; exact mul_nonneg (by norm_num) hdiv0)
  have hF40 : ⌊(defaultBarLength : ℚ) * (current : ℚ) / (total : ℚ)⌋ ≤ 40 := by
    have hle : (defaultBarLength : ℚ) * (current : ℚ) / (total : ℚ) ≤ 40 := by
      rw [mul_div_assoc]
      calc (defaultBarLength : ℚ) * ((current : ℚ) / (total : ℚ))
          ≤ (defaultBarLength : ℚ) * 1 :=
            mul_le_mul_of_nonneg_left hdiv1 (by norm_num)
        _ ≤ 40 := by norm_num [defaultBarLength]
    calc ⌊(defaultBarLength : ℚ) * (current : ℚ) / (total : ℚ)⌋
        ≤ ⌊(40 : ℚ)⌋ := Int.floor_mono hle
      _ = 40 := by norm_num
  refine ⟨hp, by rw [hp, mul_div_assoc], hfl, ?_, ?_⟩
  · rw [hfl]
    unfold renderBar pyRepeat
    simp [List.count_append, List.count_replicate]
  · rw [hfl]
    unfold renderBar pyRepeat
    have hd : defaultBarLength = 40 := rfl
    simp [List.count_append, List.count_replicate]
    omega

/-- C1 witness: total = 4, current = 3 gives progress 3/4, percentage 75,
30 filled cells and 10 empty cells. -/
theorem update_progress_and_bar_witness :
    progress ((3 : ℕ) : ℚ) ((4 : ℕ) : ℚ) = ((3 : ℕ) : ℚ) / ((4 : ℕ) : ℚ) ∧
    100 * progress ((3 : ℕ) : ℚ) ((4 : ℕ) : ℚ) =
      100 * ((3 : ℕ) : ℚ) / ((4 : ℕ) : ℚ) ∧
    filledLength defaultBarLength (progress ((3 : ℕ) : ℚ) ((4 : ℕ) : ℚ)) =
      ⌊(defaultBarLength : ℚ) * ((3 : ℕ) : ℚ) / ((4 : ℕ) : ℚ)⌋ ∧
    (renderBar defaultBarLength
        (filledLength defaultBarLength (progress ((3 : ℕ) : ℚ) ((4 : ℕ) : ℚ)))).count '█' =
      (⌊(defaultBarLength : ℚ) * ((3 : ℕ) : ℚ) / ((4 : ℕ) : ℚ)⌋).toNat ∧
    (renderBar defaultBarLength
        (filledLength defaultBarLength (progress ((3 : ℕ) : ℚ) ((4 : ℕ) : ℚ)))).count '▒' =
      defaultBarLength - (⌊(defaultBarLength : ℚ) * ((3 : ℕ) : ℚ) / ((4 : ℕ) : ℚ)⌋).toNat :=
  update_progress_and_bar 4 3 (by decide) (by decide)

/-- C2: with positive elapsed time, throughput is current/elapsed; ETA uses
the mean of the sample buffer times (total − current) once at least 2
samples exist (0 when current is not positive), and otherwise
elapsed·(1 − progress)/progress (0 when progress is not positive); with
elapsed ≤ 0 both throughput and ETA are 0. -/
theorem eta_speed_policy (elapsed current total : ℚ) (samples : List ℚ) :
    (elapsed ≤ 0 → speed elapsed current = 0 ∧ eta elapsed current total samples = 0) ∧
    (0 < elapsed →
      speed elapsed current = current / elapsed ∧
      (2 ≤ samples.length →
        eta elapsed current total samples =
          if 0 < current then samples.sum / (samples.length : ℚ) * (total - current)
          else 0) ∧
      (samples.length < 2 →
        eta elapsed current total samples =
          if 0 < progress current total then
            elapsed * (1 - progress current total) / progress current total
          else 0)) := by
  unfold speed eta avgIterationTime
  constructor
  · intro h
    rw [if_neg (not_lt.mpr h), if_neg (not_lt.mpr h)]
    exact ⟨rfl, rfl⟩
  · intro h
    rw [if_pos h, if_pos h]
    refine ⟨rfl, ?_, ?_⟩
    · intro h2
      rw [if_pos h2]
    · intro h2
      rw [if_neg (not_le.mpr h2)]

/-- C2 witness: elapsed = 2, current = 4, total = 8, samples = [1, 2]:
throughput 2 and ETA (3/2)·(8−4) = 6. -/
theorem eta_speed_policy_witness :
    speed 2 4 = 2 ∧ eta 2 4 8 [1, 2] = 6 := by
  obtain ⟨-, h⟩ := eta_speed_policy 2 4 8 [1, 2]
  obtain ⟨hs, h2, -⟩ := h (by norm_num)
  refine ⟨?_, ?_⟩
  · rw [hs]; norm_num
  · rw [h2 (by norm_num)]
    norm_num

/-- C3: the metrics summarizer selects the rating tier by the highest
threshold met, checked in descending order: cycles_per_second exactly at
1e7, 1e6, 1e5, 1e4, 1e3 maps to EXTREME, EXCELLENT, GREAT, GOOD, AVERAGE
respectively, and 999 maps to SLOW. -/
theorem rating_thresholds :
    rating 10000000 = RatingTier.EXTREME ∧
    rating 1000000 = RatingTier.EXCELLENT ∧
    rating 100000 = RatingTier.GREAT ∧
    rating 10000 = RatingTier.GOOD ∧
    rating 1000 = RatingTier.AVERAGE ∧
    rating 999 = RatingTier.SLOW := by
  refine ⟨?_, ?_, ?_, ?_, ?_, ?_⟩ <;> decide

/-- C4: when the buffer held at most 100 samples before an update, it holds
at most 100 afterwards; an update with current not positive leaves the
buffer unchanged; with positive current the cumulative sample
elapsed/current is appended, and when the buffer was full (100 entries) the
oldest entry (the head) is evicted. -/
theorem sample_buffer_invariant (buf : List ℚ) (current elapsed : ℚ)
    (hlen : buf.length ≤ 100) :
    (recordSample buf current elapsed).length ≤ 100 ∧
    (¬ 0 < current → recordSample buf current elapsed = buf) ∧
    (0 < current → buf.length < 100 →
      recordSample buf current elapsed = buf ++ [elapsed / current]) ∧
    (0 < current → buf.length = 100 →
      recordSample buf current elapsed = buf.tail ++ [elapsed / current]) := by
  refine ⟨?_, ?_, ?_, ?_⟩
  · unfold recordSample
    split_ifs with hc h100
    · simp only [List.length_tail, List.length_append, List.length_cons,
        List.length_nil]
      omega
    · simp only [List.length_append, List.length_cons, List.length_nil] at h100 ⊢
      omega
    · exact hlen
  · intro hc
    unfold recordSample
    rw [if_neg hc]
  · intro hc hlt
    unfold recordSample
    rw [if_pos hc, if_neg (by simp; omega)]
  · intro hc heq
    unfold recordSample
    rw [if_pos hc, if_pos (by simp [heq])]
    cases buf with
    | nil => simp at heq
    | cons a l => simp

/-- C4 witness: buffer [1, 2] (length ≤ 100), current = 3, elapsed = 6:
the update appends 6/3 = 2, giving [1, 2, 2] with no eviction. -/
theorem sample_buffer_invariant_witness :
    (recordSample [1, 2] 3 6).length ≤ 100 ∧
    (¬ (0 : ℚ) < 3 → recordSample [1, 2] 3 6 = [1, 2]) ∧
    ((0 : ℚ) < 3 → ([1, 2] : List ℚ).length < 100 →
      recordSample [1, 2] 3 6 = [1, 2] ++ [6 / 3]) ∧
    ((0 : ℚ) < 3 → ([1, 2] : List ℚ).length = 100 →
      recordSample [1, 2] 3 6 = ([1, 2] : List ℚ).tail ++ [6 / 3]) :=
  sample_buffer_invariant [1, 2] 3 6 (by decide)

/-- C5: every division in the metrics summarizer is guarded, so the
ZeroDivisionError branch (`none`) is unreachable for all inputs; in
particular total_time_sec = 0 yields cycles_per_second = 0 and
cpu_efficiency_pct = 0. -/
theorem metrics_guarded (numCycles totalTime cpuTime : ℚ) :
    (calculatePerformanceMetrics numCycles totalTime cpuTime).isSome ∧
    Option.map PerformanceMetrics.cycles_per_second
        (calculatePerformanceMetrics numCycles 0 cpuTime) = some 0 ∧
    Option.map PerformanceMetrics.cpu_efficiency
        (calculatePerformanceMetrics numCycles 0 cpuTime) = some 0 := by
  have hz : ∀ a b : ℚ, 0 < b → guardedDiv a b = some (a / b) := by
    intro a b hb
    unfold guardedDiv
    rw [if_neg hb.ne']
  refine ⟨?_, ?_, ?_⟩
  · unfold calculatePerformanceMetrics
    by_cases h1 : 0 < totalTime
    · by_cases h2 : 0 < numCycles
      · rw [if_pos h1, if_pos h1, if_pos h2, hz _ _ h1, hz _ _ h1, hz _ _ h2]
        rfl
      · rw [if_pos h1, if_pos h1, if_neg h2, hz _ _ h1, hz _ _ h1]
        rfl
    · by_cases h2 : 0 < numCycles
      · rw [if_neg h1, if_neg h1, if_pos h2, hz _ _ h2]
        rfl
      · rw [if_neg h1, if_neg h1, if_neg h2]
        rfl
  · unfold calculatePerformanceMetrics
    rw [if_neg (lt_irrefl (0 : ℚ)), if_neg (lt_irrefl (0 : ℚ))]
    by_cases hn : 0 < numCycles
    · rw [if_pos hn, hz _ _ hn]
      rfl
    · rw [if_neg hn]
      rfl
  · unfold calculatePerformanceMetrics
    rw [if_neg (lt_irrefl (0 : ℚ)), if_neg (lt_irrefl (0 : ℚ))]
    by_cases hn : 0 < numCycles
    · rw [if_pos hn, hz _ _ hn]
      rfl
    · rw [if_neg hn]
      rfl

/-- C6: the predictor emits exactly one pair per fixed test count strictly
greater than the executed count, and that pair's estimate is the pure
linear extrapolation count × measured_seconds_per_cycle. -/
theorem predictions_spec (numCycles : ℕ) (tpc : ℚ) (c : ℕ) (est : ℚ) :
    (c, est) ∈ displayPredictions numCycles tpc ↔
      c ∈ testCycles ∧ numCycles < c ∧ est = tpc * (c : ℚ) := by
  unfold displayPredictions estimatedTime
  constructor
  · intro h
    obtain ⟨a, ha, heq⟩ := List.mem_map.mp h
    obtain ⟨ha1, ha2⟩ := List.mem_filter.mp ha
    simp only [Prod.mk.injEq] at heq
    obtain ⟨rfl, rfl⟩ := heq
    exact ⟨ha1, by simpa using ha2, rfl⟩
  · rintro ⟨h1, h2, rfl⟩
    exact List.mem_map.mpr ⟨c, List.mem_filter.mpr ⟨h1, by simpa using h2⟩, rfl⟩

/-- C6 witness: with executed count 1000 and 0.001 s per cycle, the pair
(100000, 100000·0.001) is emitted. -/
theorem predictions_spec_witness :
    (100000, (1 / 1000 : ℚ) * ((100000 : ℕ) : ℚ)) ∈ displayPredictions 1000 (1 / 1000) :=
  (predictions_spec 1000 (1 / 1000) 100000 ((1 / 1000 : ℚ) * ((100000 : ℕ) : ℚ))).mpr
    ⟨by decide, by decide, rfl⟩

/-- C7 counterexample: with measured_seconds_per_cycle = 0.001 and count
100000 the estimate is 100.0 seconds, but 100 is not below 60, so the
formatting chain of `display_predictions` does NOT place it in the seconds
tier — the claim's "formatted in the seconds display tier" is false. -/
theorem prediction_seconds_tier_counterexample :
    estimatedTime (1 / 1000) 100000 = 100 ∧
    predictionTier (estimatedTime (1 / 1000) 100000) ≠ TimeTier.seconds := by
  have h : estimatedTime (1 / 1000) 100000 = 100 := by unfold estimatedTime; norm_num
  refine ⟨h, ?_⟩
  rw [h]
  unfold predictionTier
  norm_num
  decide

/-- C7 amended: with measured_seconds_per_cycle = 0.001, count 100000 and
already-executed count 1000, the predictor emits (100000, 100.0) and that
value falls in the minutes display tier (100 s is not < 60 s but is
< 3600 s). -/
theorem prediction_minutes_tier :
    (100000, (100 : ℚ)) ∈ displayPredictions 1000 (1 / 1000) ∧
    estimatedTime (1 / 1000) 100000 = 100 ∧
    predictionTier (estimatedTime (1 / 1000) 100000) = TimeTier.minutes := by
  have h : estimatedTime (1 / 1000) 100000 = 100 := by unfold estimatedTime; norm_num
  refine ⟨?_, h, ?_⟩
  · simp only [displayPredictions, testCycles]
    norm_num [estimatedTime]
  · rw [h]
    unfold predictionTier
    norm_num

/-- C8: the elapsed-time formatter follows the three-tier rule (below a
minute "S.Ss", below an hour "Mm Ss", else "Hh Mm"), so 0.5 formats as
"0.5s", 90 as "1m 30s", and 3700 as "1h 1m". -/
theorem format_time_examples :
    formatTime (1 / 2) = "0.5s" ∧
    formatTime 90 = "1m 30s" ∧
    formatTime 3700 = "1h 1m" := by
  refine ⟨?_, ?_, ?_⟩
  · have h5 : roundHalfEven ((1 / 2 : ℚ) * 10) = 5 := by
      unfold roundHalfEven; norm_num
    unfold formatTime
    rw [if_pos (by norm_num : (1 / 2 : ℚ) < 60)]
    unfold fmt1
    rw [h5]
    rfl
  · have hm : (⌊(90 : ℚ) / 60⌋ : ℤ) = 1 := by norm_num
    unfold formatTime
    rw [if_neg (by norm_num : ¬ (90 : ℚ) < 60),
        if_pos (by norm_num : (90 : ℚ) < 3600)]
    simp only [hm]
    have h1 : roundHalfEven ((1 : ℤ) : ℚ) = 1 := by unfold roundHalfEven; norm_num
    have h30 : roundHalfEven ((90 : ℚ) - 60 * ((1 : ℤ) : ℚ)) = 30 := by
      unfold roundHalfEven; norm_num
    unfold fmt0
    rw [h1, h30]
    rfl
  · have hh : (⌊(3700 : ℚ) / 3600⌋ : ℤ) = 1 := by norm_num
    unfold formatTime
    rw [if_neg (by norm_num : ¬ (3700 : ℚ) < 60),
        if_neg (by norm_num : ¬ (3700 : ℚ) < 3600)]
    simp only [hh]
    have hm : (⌊((3700 : ℚ) - 3600 * ((1 : ℤ) : ℚ)) / 60⌋ : ℤ) = 1 := by norm_num
    simp only [hm]
    have h1 : roundHalfEven ((1 : ℤ) : ℚ) = 1 := by unfold roundHalfEven; norm_num
    unfold fmt0
    rw [h1]
    rfl

/-- C9: the cycle-execution loop with num_cycles = 10 completes without
error; its update trace is [1,…,10] followed by finish's update(10), so the
final update passes current = total = 10 and the reported progress is
exactly 100%. -/
theorem perform_cycles_ten :
    performCycles 10 = Except.ok [1, 2, 3, 4, 5, 6, 7, 8, 9, 10, 10] ∧
    ([1, 2, 3, 4, 5, 6, 7, 8, 9, 10, 10] : List ℕ).getLast? = some 10 ∧
    100 * progress (10 : ℚ) 10 = 100 := by
  refine ⟨rfl, rfl, ?_⟩
  unfold progress
  norm_num

/-- C10: for every num_cycles between 1 and 9, batch_size is 1, so iteration
i = 0 enters the update branch and then evaluates i % (num_cycles // 10)
with num_cycles // 10 = 0, raising ZeroDivisionError on the first iteration;
the run never completes and main's catch-all handler absorbs the error. -/
theorem small_cycles_zero_division (n : ℕ) (h1 : 1 ≤ n) (h9 : n ≤ 9) :
    performCycles n = Except.error 0 ∧ mainOutcome n = RunOutcome.caughtError 0 := by
  interval_cases n <;> exact ⟨rfl, rfl⟩

/-- C10 witness: num_cycles = 5 raises ZeroDivisionError at iteration 0 and
is caught by main. -/
theorem small_cycles_zero_division_witness :
    performCycles 5 = Except.error 0 ∧ mainOutcome 5 = RunOutcome.caughtError 0 :=
  small_cycles_zero_division 5 (by decide) (by decide)

end PySpeed
